import Mathlib

/-!
Verification development for the Drain3 log-template-mining MCP servers:
a shallow embedding of `drain3_server.py` (HTTP streaming server with tools
`index_file`, `query_file`, `list_templates`) and `drain3_mcp_server.py`
(stdio server with tools `parse_log`, `get_clusters`), together with a model
of the template-mining engine taken from the design spec (the engine itself
is the external `drain3` pip package, not part of this repository's sources).

File paths are modelled as lists of name components of an already-resolved
absolute path; the file system is modelled as two association lists, one for
readable source files (path to list of raw lines) and one for persisted
snapshots (snapshot path to engine state).  Logger calls are modelled as a
trace of message strings; yielded JSONL objects are modelled as a trace of
structured events.
-/

namespace Drain3

/-- The reserved generic wildcard token of the engine (spec section 3). -/
def wildcard : String := "<*>"

/-- A cluster: stable id, member count, and template token sequence
(spec section 3; field names follow the drain3 attributes read by
`_clusters_as_dicts`). -/
structure Cluster where
  cluster_id : Nat
  size : Nat
  log_template_tokens : List String
deriving Repr, DecidableEq

/-- Modelled from the spec: the in-memory state of the template-mining
engine (`drain3.TemplateMiner`, an external dependency not present in the
repository sources).  Spec section 3 — the cluster store; clusters are kept
in creation order. -/
structure MinerState where
  clusters : List Cluster
deriving Repr, DecidableEq

/-- The whitespace characters of Python's `str.split()` / `str.strip()`. -/
def pyIsWs (c : Char) : Bool :=
  c == ' ' || c == '\t' || c == '\n' || c == '\r' ||
  c == Char.ofNat 11 || c == Char.ofNat 12

/-- Python `str.strip()`: drop leading and trailing whitespace. -/
def pyStrip (s : String) : String :=
  String.mk (((s.data.dropWhile pyIsWs).reverse.dropWhile pyIsWs).reverse)

/-- Helper for `tokenize`: split a character list on whitespace runs,
accumulating the current (reversed) token. -/
def splitWsAux : List Char → List Char → List String
  | [], acc => if acc.isEmpty then [] else [String.mk acc.reverse]
  | c :: cs, acc =>
    if pyIsWs c then
      if acc.isEmpty then splitWsAux cs []
      else String.mk acc.reverse :: splitWsAux cs []
    else splitWsAux cs (c :: acc)

/-- Modelled from the spec: the tokenizer splits a line into whitespace
delimited tokens (spec section 2, "Tokenizer"; Python `str.split()` with
no separator — runs of whitespace delimit, no empty tokens). -/
def tokenize (s : String) : List String :=
  splitWsAux s.data []

/-- Modelled from the spec: the number of positions where the line token
equals the template token or the template token is a wildcard
(spec section 4.2). -/
def simCount (template tokens : List String) : Nat :=
  (List.zip template tokens).countP (fun tc => tc.1 == wildcard || tc.1 == tc.2)

/-- Modelled from the spec: the similarity threshold, a rational in [0,1]
kept as an explicit numerator/denominator pair so that every engine
comparison stays in integer arithmetic (spec section 4.2). -/
structure SimTh where
  num : Nat
  den : Nat
deriving Repr, DecidableEq

/-- Modelled from the spec: a candidate is eligible only if its template
length equals the line's token count (spec sections 3 and 4.2). -/
def eligible (tokens : List String) (c : Cluster) : Bool :=
  c.log_template_tokens.length == tokens.length

/-- Modelled from the spec: select among eligible candidates the one with
maximum similarity, ties resolved in favour of the earliest-created cluster
(candidates are scanned in creation order and a strictly greater similarity
is required to displace the current best; spec section 4.2).  All eligible
candidates share the line's token count, so comparing the agreeing-position
counts compares the similarity fractions. -/
def bestCandidate (tokens : List String) (cands : List Cluster) : Option Cluster :=
  cands.foldl
    (fun best c =>
      if eligible tokens c then
        match best with
        | none => some c
        | some b =>
          if simCount b.log_template_tokens tokens < simCount c.log_template_tokens tokens then
            some c
          else some b
      else best)
    none

/-- Modelled from the spec: the threshold test `simCount / L ≥ threshold`
in cross-multiplied integer form (spec section 4.2). -/
def aboveThreshold (threshold : SimTh) (count len : Nat) : Bool :=
  decide (threshold.num * len ≤ count * threshold.den)

/-- Modelled from the spec: `match(tokens, candidates, threshold)` — the
non-mutating matcher used by query mode; returns the best eligible cluster
when its similarity reaches the threshold, else none (spec sections 4.2 and
4.5 "Query mode").  The source method name is `match`, a Lean keyword. -/
def MinerState.matchText (st : MinerState) (threshold : SimTh) (text : String) : Option Cluster :=
  let tokens := tokenize text
  match bestCandidate tokens st.clusters with
  | none => none
  | some b =>
    if aboveThreshold threshold (simCount b.log_template_tokens tokens)
        b.log_template_tokens.length then
      some b
    else none

/-- Modelled from the spec: template merge — positions where the matched
line disagrees with the template become wildcards (spec section 4.3). -/
def mergeTemplate (template tokens : List String) : List String :=
  (List.zip template tokens).map (fun tc => if tc.1 == tc.2 then tc.1 else wildcard)

/-- Modelled from the spec: the next cluster identifier, a fresh increasing
integer (spec sections 3 and 4.3). -/
def nextId (st : MinerState) : Nat :=
  (st.clusters.map Cluster.cluster_id).foldl max 0 + 1

/-- The result dictionary returned by `TemplateMiner.add_log_message`,
as read by the stdio server (`cluster_id`, `template_mined`,
`change_type`). -/
structure AddResult where
  cluster_id : Nat
  template_mined : String
  change_type : String
deriving Repr, DecidableEq

/-- Modelled from the spec: one ingestion step — match the line; on a match
generalize the template and increment `size`; otherwise create a new cluster
whose template is the line's token sequence (spec section 4.3). -/
def MinerState.add_log_message (st : MinerState) (threshold : SimTh) (text : String) :
    AddResult × MinerState :=
  let tokens := tokenize text
  match st.matchText threshold text with
  | some b =>
    let newTemplate := mergeTemplate b.log_template_tokens tokens
    let changed := newTemplate ≠ b.log_template_tokens
    (⟨b.cluster_id, " ".intercalate newTemplate,
      if changed then "cluster_template_changed" else "none"⟩,
     ⟨st.clusters.map (fun c =>
        if c.cluster_id = b.cluster_id then
          ⟨c.cluster_id, c.size + 1, mergeTemplate c.log_template_tokens tokens⟩
        else c)⟩)
  | none =>
    (⟨nextId st, " ".intercalate tokens, "cluster_created"⟩,
     ⟨st.clusters ++ [⟨nextId st, 1, tokens⟩]⟩)

/-- A fresh engine with no clusters (what `TemplateMiner` starts from when
the persistence file does not exist yet). -/
def emptyMiner : MinerState := ⟨[]⟩

/-- Feeding a list of lines to the engine in order, discarding the
per-line results. -/
def foldAdd (threshold : SimTh) (st : MinerState) (ls : List String) : MinerState :=
  ls.foldl (fun s l => (s.add_log_message threshold l).2) st

end Drain3

namespace Drain3.Server

/-- A file path, modelled as the component list of a resolved absolute
path. -/
abbrev FsPath := List String

/-- Rendering of a path for log and error messages (the `str(p)` of the
source). -/
def pathToString (p : FsPath) : String := "/" ++ "/".intercalate p

/-- `Path(path).expanduser().resolve()`: paths in the model are already
absolute and resolved, so resolution is the identity on them. -/
def resolvePath (p : FsPath) : FsPath := p

/-- `file_path.name`: the final path component (empty for the root). -/
def pathName (p : FsPath) : String := p.getLast?.getD ""

/-- `name.replace("/", "_")`: every slash replaced by an underscore (the
pattern is a single character, so the replacement is characterwise). -/
def replaceSlash (s : String) : String :=
  String.mk (s.data.map (fun c => if c == '/' then '_' else c))

/-- Association-list lookup keyed by path. -/
def lookupPath {α : Type} (l : List (FsPath × α)) (k : FsPath) : Option α :=
  (l.find? (fun e => e.1 == k)).map (fun e => e.2)

/-- Association-list overwrite keyed by path (`FilePersistence.save` has
wholesale overwrite semantics; the new binding shadows any older one). -/
def storePath {α : Type} (l : List (FsPath × α)) (k : FsPath) (v : α) : List (FsPath × α) :=
  (k, v) :: l

/-- The file system visible to the server: readable source files (path to
raw line list), persisted snapshots (snapshot path to engine state), and
the existing regular files that cannot be opened for reading (e.g. no read
permission).  `unreadable` is disjoint from the domain of `files`: a path
in it passes `p.exists() and p.is_file()` but `p.open()` raises. -/
structure Fs where
  files : List (FsPath × List String)
  snapshots : List (FsPath × Drain3.MinerState)
  unreadable : List FsPath
deriving Repr, DecidableEq

/-- The configuration surface of `drain3_server.py` that the modelled code
paths read: `SIM_TH` (default 0.4) and `STREAM_FLUSH_EVERY` (default
500). -/
structure Config where
  SIM_TH : Drain3.SimTh
  STREAM_FLUSH_EVERY : Nat
deriving Repr, DecidableEq

/-- The defaults of the source: `DRAIN3_SIM_TH` 0.4 and
`STREAM_FLUSH_EVERY` 500. -/
def defaultConfig : Config := ⟨⟨2, 5⟩, 500⟩

/-- `_snapshot_path_for`: `STATE_DIR / (file_path.name.replace("/", "_")
+ ".snapshot.json")`. -/
def _snapshot_path_for (stateDir : FsPath) (file_path : FsPath) : FsPath :=
  stateDir ++ [replaceSlash (pathName file_path) ++ ".snapshot.json"]

/-- `_new_miner(snapshot)`: a `TemplateMiner` with `FilePersistence` loads
the existing snapshot if present, else starts fresh. -/
def loadMiner (fs : Fs) (snapshot : FsPath) : Drain3.MinerState :=
  (lookupPath fs.snapshots snapshot).getD Drain3.emptyMiner

/-- `ln.rstrip("\n")`: drop trailing newline characters. -/
def rstripNewline (s : String) : String :=
  String.mk ((s.data.reverse.dropWhile (fun c => c == '\n')).reverse)

/-- `_read_lines`: the lines of the opened file with trailing newlines
stripped. -/
def _read_lines (content : List String) : List String :=
  content.map rstripNewline

/-- The dictionaries built by `_clusters_as_dicts`: `cluster_id`, `size`,
and the space-joined template. -/
structure ClusterDict where
  cluster_id : Nat
  size : Nat
  template : String
deriving Repr, DecidableEq

/-- `_clusters_as_dicts(miner, limit)`; `if limit:` is Python truthiness,
so `None` and `0` both mean "no truncation". -/
def _clusters_as_dicts (miner : Drain3.MinerState) (limit : Option Nat) : List ClusterDict :=
  let clusters :=
    match limit with
    | some n => if n ≠ 0 then miner.clusters.take n else miner.clusters
    | none => miner.clusters
  clusters.map (fun c => ⟨c.cluster_id, c.size, " ".intercalate c.log_template_tokens⟩)

/-- The JSONL events yielded by the server tools, in structured form. -/
inductive Event where
  | start (file : FsPath) (snapshot : FsPath)
  | progress (file : FsPath) (processed : Nat)
  | template (file : FsPath) (cluster_id : Nat) (size : Nat) (template : String)
  | file_summary (file : FsPath) (snapshot : FsPath) (processed_lines : Nat) (cluster_count : Nat)
  | total_summary (total_files : Nat) (total_lines : Nat) (total_clusters : Nat)
      (failed_files : List FsPath)
  | error (msg : String) (file : FsPath)
  | query (file : FsPath) (snapshot : FsPath) (cluster_id : Option Nat)
      (cluster_size : Option Nat) (template : Option String)
deriving Repr, DecidableEq

/-- Whether an event is an `{"event":"error", ...}` record. -/
def Event.isErrorEv : Event → Bool
  | .error _ _ => true
  | _ => false

/-- `if max_lines and processed > max_lines:` — Python truthiness: the cap
fires only when `max_lines` is present, nonzero, and exceeded. -/
def capHit (max_lines : Option Nat) (processed : Nat) : Bool :=
  match max_lines with
  | none => false
  | some m => decide (m ≠ 0) && decide (m < processed)

/-- The per-line loop of `index_file` (lines 141–152 of the source):
threads the miner and the 1-based `processed` counter through the remaining
lines, feeds non-blank lines to the engine, emits a progress event every
`STREAM_FLUSH_EVERY` lines, and honours the `max_lines` cap (on a cap hit
the final increment is rolled back and the loop breaks).  Returns the final
miner, the final `processed` value, and the progress events in order. -/
def lineLoop (cfg : Config) (p : FsPath) (max_lines : Option Nat) :
    Drain3.MinerState → Nat → List String → Drain3.MinerState × Nat × List Event
  | miner, processed, [] => (miner, processed, [])
  | miner, processed, ln :: rest =>
    if capHit max_lines (processed + 1) then
      (miner, processed + 1 - 1, [])
    else
      let miner' := if Drain3.pyStrip ln ≠ "" then (miner.add_log_message cfg.SIM_TH ln).2 else miner
      let evs :=
        if (processed + 1) % cfg.STREAM_FLUSH_EVERY == 0 then
          [Event.progress p (processed + 1)]
        else []
      let r := lineLoop cfg p max_lines miner' (processed + 1) rest
      (r.1, r.2.1, evs ++ r.2.2)

/-- The outcome of processing one source path inside `index_file`.
`raised` records an uncaught exception escaping the generator (the
unreadable-file case): the events and logs up to the raise were already
delivered, and nothing of the source after the raise runs. -/
structure SourceOut where
  events : List Event
  logs : List String
  fs : Fs
  failed : Bool
  raised : Bool
  processed : Nat
  cluster_count : Nat
deriving Repr, DecidableEq

/-- The good-path body of the `for path in paths:` loop of `index_file`
(lines 131–171): load-or-create the snapshot's miner, yield a start event,
run the per-line loop, attempt the final `save_state` under
`try/except: pass` (modelled by the `saveFails` environment: a failing save
leaves the snapshot store untouched and is swallowed), then yield one
template event per cluster and a file summary. -/
def indexGood (cfg : Config) (stateDir : FsPath) (saveFails : FsPath → Bool)
    (max_lines : Option Nat) (fs : Fs) (p : FsPath) (content : List String) : SourceOut :=
  let snapshot := _snapshot_path_for stateDir p
  let miner := loadMiner fs snapshot
  let r := lineLoop cfg p max_lines miner 0 (_read_lines content)
  let fs' : Fs :=
    if saveFails snapshot then fs
    else { fs with snapshots := storePath fs.snapshots snapshot r.1 }
  let clusters := _clusters_as_dicts r.1 none
  { events := [.start p snapshot] ++ r.2.2
      ++ clusters.map (fun c => .template p c.cluster_id c.size c.template)
      ++ [.file_summary p snapshot r.2.1 clusters.length],
    logs := ["File found: " ++ pathToString p,
             "Snapshot path: " ++ pathToString snapshot,
             "Template miner created",
             "Started processing file"],
    fs := fs', failed := false, raised := false, processed := r.2.1,
    cluster_count := clusters.length }

/-- The body of the `for path in paths:` loop of `index_file` (lines
123–175): resolve the path; a path that is not an existing regular file
fails the `p.exists() and p.is_file()` guard — log and yield a single error
event and mark the source failed; an existing but unreadable regular file
passes the guard, so the start event is yielded and then `p.open()` inside
`_read_lines` (src lines 76–79) raises an uncaught exception that escapes
the generator (`raised`); otherwise process the source via `indexGood`. -/
def index_one (cfg : Config) (stateDir : FsPath) (saveFails : FsPath → Bool)
    (max_lines : Option Nat) (fs : Fs) (path : FsPath) : SourceOut :=
  match lookupPath fs.files (resolvePath path) with
  | none =>
    if resolvePath path ∈ fs.unreadable then
      { events := [.start (resolvePath path)
          (_snapshot_path_for stateDir (resolvePath path))],
        logs := ["File found: " ++ pathToString (resolvePath path),
                 "Snapshot path: "
                   ++ pathToString (_snapshot_path_for stateDir (resolvePath path)),
                 "Template miner created",
                 "Started processing file"],
        fs := fs, failed := false, raised := true, processed := 0, cluster_count := 0 }
    else
      { events := [.error ("File not found: " ++ pathToString (resolvePath path))
          (resolvePath path)],
        logs := ["File not found: " ++ pathToString (resolvePath path)],
        fs := fs, failed := true, raised := false, processed := 0, cluster_count := 0 }
  | some content => indexGood cfg stateDir saveFails max_lines fs (resolvePath path) content

/-- The accumulated outcome of the whole `for path in paths:` loop;
`raised` propagates an uncaught exception that killed the generator. -/
structure BatchOut where
  events : List Event
  logs : List String
  fs : Fs
  total_files : Nat
  total_lines : Nat
  total_clusters : Nat
  failed_files : List FsPath
  raised : Bool
deriving Repr, DecidableEq

/-- Accumulation step of the source loop of `index_file`: a failed source
joins `failed_files` and contributes no totals (lines 127–129); a processed
source adds its line and cluster counts to the running totals (lines
173–175). -/
def combineBatch (so : SourceOut) (b : BatchOut) (path : FsPath) : BatchOut :=
  if so.failed then
    ⟨so.events ++ b.events, so.logs ++ b.logs, b.fs,
     b.total_files, b.total_lines, b.total_clusters,
     resolvePath path :: b.failed_files, b.raised⟩
  else
    ⟨so.events ++ b.events, so.logs ++ b.logs, b.fs,
     b.total_files + 1, b.total_lines + so.processed,
     b.total_clusters + so.cluster_count, b.failed_files, b.raised⟩

/-- The source loop of `index_file` over the path list, threading the file
system and accumulating `total_files`, `total_lines`,
`total_clusters` and `failed_files` exactly as lines 118–175 do.  A source
whose read raises an uncaught exception terminates the whole generator: the
events and logs delivered so far stand, no later path is processed, and no
accumulation happens past the raise. -/
def indexLoop (cfg : Config) (stateDir : FsPath) (saveFails : FsPath → Bool)
    (max_lines : Option Nat) : Fs → List FsPath → BatchOut
  | fs, [] => ⟨[], [], fs, 0, 0, 0, [], false⟩
  | fs, path :: rest =>
    if (index_one cfg stateDir saveFails max_lines fs path).raised then
      ⟨(index_one cfg stateDir saveFails max_lines fs path).events,
       (index_one cfg stateDir saveFails max_lines fs path).logs,
       (index_one cfg stateDir saveFails max_lines fs path).fs,
       0, 0, 0, [], true⟩
    else
      combineBatch (index_one cfg stateDir saveFails max_lines fs path)
        (indexLoop cfg stateDir saveFails max_lines
          (index_one cfg stateDir saveFails max_lines fs path).fs rest)
        path

/-- `index_file(paths, encoding, max_lines)` (lines 100–184): processes the
sources sequentially and ends with the single `total_summary` event —
unless an uncaught per-source read exception killed the generator, in which
case the delivered trace simply stops (no `total_summary`).  Returns the
event trace, the logger trace, and the resulting file system. -/
def index_file (cfg : Config) (stateDir : FsPath) (saveFails : FsPath → Bool)
    (fs : Fs) (paths : List FsPath) (max_lines : Option Nat) :
    List Event × List String × Fs :=
  let b := indexLoop cfg stateDir saveFails max_lines fs paths
  if b.raised then
    (b.events, "index_file called" :: b.logs, b.fs)
  else
    (b.events ++ [.total_summary b.total_files b.total_lines b.total_clusters b.failed_files],
     "index_file called" :: b.logs,
     b.fs)

/-- `query_file(path, text)` (lines 186–217): resolve the path, derive the
snapshot path, report an error event when no snapshot exists; otherwise
load the miner from the snapshot and yield a single query event with the
matched cluster's fields, or with null fields on no match.  The file system
is returned unchanged: the source performs no write. -/
def query_file (cfg : Config) (stateDir : FsPath) (fs : Fs) (path : FsPath) (text : String) :
    List Event × List String × Fs :=
  match lookupPath fs.snapshots (_snapshot_path_for stateDir (resolvePath path)) with
  | none =>
    ([.error ("No snapshot for " ++ pathToString (resolvePath path) ++ ". Run index_file first.")
        (resolvePath path)],
     ["query_file called", "No snapshot found for " ++ pathToString (resolvePath path)],
     fs)
  | some st =>
    match st.matchText cfg.SIM_TH text with
    | none =>
      ([.query (resolvePath path) (_snapshot_path_for stateDir (resolvePath path)) none none none],
       ["query_file called",
        "Snapshot exists: " ++ pathToString (_snapshot_path_for stateDir (resolvePath path))],
       fs)
    | some cluster =>
      ([.query (resolvePath path) (_snapshot_path_for stateDir (resolvePath path))
          (some cluster.cluster_id) (some cluster.size)
          (some (" ".intercalate cluster.log_template_tokens))],
       ["query_file called",
        "Snapshot exists: " ++ pathToString (_snapshot_path_for stateDir (resolvePath path))],
       fs)

end Drain3.Server

namespace Drain3.Stdio

/-- The responses of `call_tool` in `drain3_mcp_server.py`, in structured
form (each is serialized to one JSON text content in the source). -/
inductive ToolResponse where
  | jsonError (msg : String)
  | parsed (cluster_id : Nat) (template : String) (change_type : String)
  | clustersInfo (total_clusters : Nat) (clusters : List (Nat × String × Nat))
deriving Repr, DecidableEq

/-- `arguments.get(key)` on the JSON arguments object, modelled as an
association list of string-valued arguments. -/
def argGet (arguments : List (String × String)) (key : String) : Option String :=
  (arguments.find? (fun e => e.1 == key)).map (fun e => e.2)

/-- Python truthiness of `arguments.get("log_line")`: falsy when the key is
absent or its value is the empty string. -/
def falsyArg : Option String → Bool
  | none => true
  | some s => s == ""

/-- `call_tool(name, arguments)` of the stdio server (lines 61–99): the
`parse_log` tool rejects a missing or falsy `log_line` with an error
result, otherwise feeds the line to the module-level miner;
`get_clusters` reports every cluster; unknown tool names produce an error
result.  The miner state is threaded explicitly (the source keeps it in a
module-level global).  The stdio server constructs its miner with the
default `TemplateMinerConfig()`, whose similarity threshold is 0.4. -/
def call_tool (st : Drain3.MinerState) (name : String) (arguments : List (String × String)) :
    ToolResponse × Drain3.MinerState :=
  if name == "parse_log" then
    let log_line := argGet arguments "log_line"
    if falsyArg log_line then
      (.jsonError "Missing \x27log_line\x27 argument", st)
    else
      let r := st.add_log_message ⟨2, 5⟩ (log_line.getD "")
      (.parsed r.1.cluster_id r.1.template_mined r.1.change_type, r.2)
  else if name == "get_clusters" then
    (.clustersInfo st.clusters.length
      (st.clusters.map (fun c => (c.cluster_id, " ".intercalate c.log_template_tokens, c.size))),
     st)
  else
    (.jsonError ("Unknown tool: " ++ name), st)

end Drain3.Stdio

namespace Drain3.Server

/-- `if ln.strip():` — whether a line is non-blank after trimming. -/
def nonBlank (l : String) : Bool := decide (Drain3.pyStrip l ≠ "")

/-- Whether an event is a `{"event":"progress", ...}` record. -/
def Event.isProgressEv : Event → Bool
  | .progress _ _ => true
  | _ => false

/-! ### Concrete fixtures used by the closed witness and counterexample
theorems -/

def sdW : FsPath := ["tmp", "drain3"]

def pW : FsPath := ["var", "log", "app.log"]

def stW : Drain3.MinerState := ⟨[⟨1, 2, ["user", "login", Drain3.wildcard]⟩]⟩

def fsW : Fs := ⟨[], [(["tmp", "drain3", "app.log.snapshot.json"], stW)], []⟩

def fsC2 : Fs := ⟨[(["logs", "a.log"], ["alpha one", "alpha two"])], [], []⟩

def fsC5 : Fs := ⟨[(["logs", "b.log"], ["a 1", "", "a 2"])], [], []⟩

def fsC6 : Fs := ⟨[(["logs", "c.log"], ["x 1", "", "x 1"])], [], []⟩

/-- A configuration with a small progress interval, for concrete runs. -/
def cfgN2 : Config := ⟨⟨2, 5⟩, 2⟩

def fsC7 : Fs := ⟨[(["logs", "d.log"], ["m 1", "m 2", "m 3", "m 4", "m 5"])], [], []⟩

def fsC4 : Fs := ⟨[(["var", "app.log"], ["u 1"])], [], []⟩

def fsC8 : Fs := ⟨[(["a", "x.log"], ["w 7"])], [], []⟩

def fsC3 : Fs := ⟨[(["g", "one.log"], ["k 1"]), (["g", "two.log"], ["k 2"])], [], []⟩

/-- A file system holding one existing-but-unreadable regular file and one
readable file, for the batch-abort counterexample. -/
def fsC3x : Fs := ⟨[(["g", "two.log"], ["k 2"])], [], [["u", "bad.log"]]⟩

/-! ### Basic lemmas about the embedded operations -/

theorem lookupPath_store_self {α : Type} (l : List (FsPath × α)) (k : FsPath) (v : α) :
    lookupPath (storePath l k v) k = some v := by
  simp [lookupPath, storePath, List.find?]

theorem query_file_fs_eq (cfg : Config) (sd : FsPath) (fs : Fs) (p : FsPath) (t : String) :
    (query_file cfg sd fs p t).2.2 = fs := by
  unfold query_file
  cases lookupPath fs.snapshots (_snapshot_path_for sd (resolvePath p)) with
  | none => rfl
  | some st =>
    dsimp only
    cases st.matchText cfg.SIM_TH t <;> rfl

/-- C1: the query operation is non-mutating — given an existing snapshot it
answers the query (matched cluster's id, size and template, or null fields
on no match) without writing to the file system, so iterating it any number
of times leaves the stored state unchanged. -/
theorem query_file_non_mutating (cfg : Config) (sd : FsPath) (fs : Fs) (p : FsPath)
    (t : String) (st : Drain3.MinerState)
    (h : lookupPath fs.snapshots (_snapshot_path_for sd (resolvePath p)) = some st) :
    (query_file cfg sd fs p t).2.2 = fs ∧
    (∀ n : Nat, (fun f => (query_file cfg sd f p t).2.2)^[n] fs = fs) ∧
    (query_file cfg sd fs p t).1 =
      [match st.matchText cfg.SIM_TH t with
       | none => Event.query (resolvePath p) (_snapshot_path_for sd (resolvePath p)) none none none
       | some c =>
         Event.query (resolvePath p) (_snapshot_path_for sd (resolvePath p))
           (some c.cluster_id) (some c.size)
           (some (" ".intercalate c.log_template_tokens))] := by
  refine ⟨query_file_fs_eq cfg sd fs p t,
    fun n => Function.iterate_fixed (query_file_fs_eq cfg sd fs p t) n, ?_⟩
  unfold query_file
  rw [h]
  dsimp only
  cases st.matchText cfg.SIM_TH t <;> rfl

theorem query_file_non_mutating_witness :
    lookupPath fsW.snapshots (_snapshot_path_for sdW (resolvePath pW)) = some stW ∧
    (query_file defaultConfig sdW fsW pW "user login alice").2.2 = fsW ∧
    (query_file defaultConfig sdW fsW pW "user login alice").1 =
      [Event.query pW ["tmp", "drain3", "app.log.snapshot.json"] (some 1) (some 2)
        (some "user login <*>")] := by
  have h : lookupPath fsW.snapshots (_snapshot_path_for sdW (resolvePath pW)) = some stW := rfl
  have main := query_file_non_mutating defaultConfig sdW fsW pW "user login alice" stW h
  exact ⟨h, main.1, by rw [main.2.2]; rfl⟩

/-- C2 (amended): a failure of the final `save_state` call is soft — every
observable of the pass (event trace, logger trace, failure flag, processed
count, cluster count) is identical to that of a run whose save succeeds —
but it is also silent: precisely because the observables coincide, nothing
is logged or reported about the failure (`except Exception: pass`). -/
theorem finalize_save_failure_soft (cfg : Config) (sd : FsPath) (sf : FsPath → Bool)
    (ml : Option Nat) (fs : Fs) (p : FsPath) :
    (index_one cfg sd sf ml fs p).events = (index_one cfg sd (fun _ => false) ml fs p).events ∧
    (index_one cfg sd sf ml fs p).logs = (index_one cfg sd (fun _ => false) ml fs p).logs ∧
    (index_one cfg sd sf ml fs p).failed = (index_one cfg sd (fun _ => false) ml fs p).failed ∧
    (index_one cfg sd sf ml fs p).processed =
      (index_one cfg sd (fun _ => false) ml fs p).processed ∧
    (index_one cfg sd sf ml fs p).cluster_count =
      (index_one cfg sd (fun _ => false) ml fs p).cluster_count := by
  unfold index_one
  cases lookupPath fs.files (resolvePath p) <;> exact ⟨rfl, rfl, rfl, rfl, rfl⟩

/-- C2 (counterexample to the claim as stated): a concrete run in which the
final save fails (the snapshot store stays empty, while the non-failing run
does persist a snapshot), yet the event trace and the logger trace are
identical to those of the non-failing run and no error event is emitted:
the persistence failure is silently swallowed, not logged or reported. -/
theorem finalize_save_failure_unreported :
    (index_one defaultConfig ["st"] (fun _ => true) none fsC2 ["logs", "a.log"]).fs.snapshots
      = [] ∧
    (index_one defaultConfig ["st"] (fun _ => false) none fsC2 ["logs", "a.log"]).fs.snapshots
      ≠ [] ∧
    (index_one defaultConfig ["st"] (fun _ => true) none fsC2 ["logs", "a.log"]).events =
      (index_one defaultConfig ["st"] (fun _ => false) none fsC2 ["logs", "a.log"]).events ∧
    (index_one defaultConfig ["st"] (fun _ => true) none fsC2 ["logs", "a.log"]).logs =
      (index_one defaultConfig ["st"] (fun _ => false) none fsC2 ["logs", "a.log"]).logs ∧
    (index_one defaultConfig ["st"] (fun _ => true) none fsC2 ["logs", "a.log"]).events.filter
      Event.isErrorEv = [] := by
  refine ⟨rfl, ?_, rfl, rfl, rfl⟩
  decide

/-! ### The `max_lines` cap and its Python-truthiness guard -/

theorem lineLoop_zero_eq_none (cfg : Config) (p : FsPath) :
    ∀ (ls : List String) (miner : Drain3.MinerState) (k : Nat),
      lineLoop cfg p (some 0) miner k ls = lineLoop cfg p none miner k ls := by
  intro ls
  induction ls with
  | nil => intro miner k; rfl
  | cons ln rest ih =>
    intro miner k
    show lineLoop cfg p (some 0) miner k (ln :: rest) = lineLoop cfg p none miner k (ln :: rest)
    have h0 : capHit (some 0) (k + 1) = false := by simp [capHit]
    have h1 : capHit none (k + 1) = false := rfl
    unfold lineLoop
    simp only [h0, h1, Bool.false_eq_true, if_false, ih]

theorem index_one_zero (cfg : Config) (sd : FsPath) (sf : FsPath → Bool) (fs : Fs) (p : FsPath) :
    index_one cfg sd sf (some 0) fs p = index_one cfg sd sf none fs p := by
  unfold index_one
  cases lookupPath fs.files (resolvePath p) with
  | none => rfl
  | some content => simp only [indexGood, lineLoop_zero_eq_none]

theorem indexLoop_zero (cfg : Config) (sd : FsPath) (sf : FsPath → Bool) :
    ∀ (paths : List FsPath) (fs : Fs),
      indexLoop cfg sd sf (some 0) fs paths = indexLoop cfg sd sf none fs paths := by
  intro paths
  induction paths with
  | nil => intro fs; rfl
  | cons p rest ih =>
    intro fs
    show indexLoop cfg sd sf (some 0) fs (p :: rest) = indexLoop cfg sd sf none fs (p :: rest)
    unfold indexLoop
    rw [index_one_zero]
    simp only [ih]

/-- C9: `max_lines = 0` disables the per-source cap entirely — `index_file`
with `max_lines = 0` is extensionally identical to `index_file` with the
argument omitted, because the guard `if max_lines and processed >
max_lines` treats `0` as falsy. -/
theorem max_lines_zero_disables_cap (cfg : Config) (sd : FsPath) (sf : FsPath → Bool)
    (fs : Fs) (paths : List FsPath) :
    index_file cfg sd sf fs paths (some 0) = index_file cfg sd sf fs paths none := by
  unfold index_file
  rw [indexLoop_zero]

/-! ### Step equations of the per-line loop -/

theorem lineLoop_cons_hit (cfg : Config) (p : FsPath) (ml : Option Nat)
    (miner : Drain3.MinerState) (k : Nat) (ln : String) (rest : List String)
    (h : capHit ml (k + 1) = true) :
    lineLoop cfg p ml miner k (ln :: rest) = (miner, k + 1 - 1, []) := by
  unfold lineLoop
  rw [h]
  rfl

theorem lineLoop_cons_miss (cfg : Config) (p : FsPath) (ml : Option Nat)
    (miner : Drain3.MinerState) (k : Nat) (ln : String) (rest : List String)
    (h : capHit ml (k + 1) = false) :
    lineLoop cfg p ml miner k (ln :: rest) =
      ((lineLoop cfg p ml
          (if Drain3.pyStrip ln ≠ "" then (miner.add_log_message cfg.SIM_TH ln).2 else miner)
          (k + 1) rest).1,
       (lineLoop cfg p ml
          (if Drain3.pyStrip ln ≠ "" then (miner.add_log_message cfg.SIM_TH ln).2 else miner)
          (k + 1) rest).2.1,
       (if (k + 1) % cfg.STREAM_FLUSH_EVERY == 0 then [Event.progress p (k + 1)] else []) ++
         (lineLoop cfg p ml
            (if Drain3.pyStrip ln ≠ "" then (miner.add_log_message cfg.SIM_TH ln).2 else miner)
            (k + 1) rest).2.2) := by
  simp only [lineLoop]
  rw [h]
  rfl

theorem foldAdd_cons (th : Drain3.SimTh) (miner : Drain3.MinerState) (ln : String)
    (ls : List String) :
    Drain3.foldAdd th miner (ln :: ls) =
      Drain3.foldAdd th (miner.add_log_message th ln).2 ls := rfl

/-! ### Characterization of the per-line loop -/

theorem lineLoop_none_miner (cfg : Config) (p : FsPath) :
    ∀ (ls : List String) (miner : Drain3.MinerState) (k : Nat),
      (lineLoop cfg p none miner k ls).1 =
        Drain3.foldAdd cfg.SIM_TH miner (ls.filter nonBlank) := by
  intro ls
  induction ls with
  | nil => intro miner k; rfl
  | cons ln rest ih =>
    intro miner k
    rw [lineLoop_cons_miss cfg p none miner k ln rest rfl, List.filter_cons]
    by_cases h : Drain3.pyStrip ln = ""
    · have hb : nonBlank ln = false := by simp [nonBlank, h]
      rw [hb, if_neg (not_not_intro h)]
      simp only [Bool.false_eq_true, if_false]
      exact ih miner (k + 1)
    · have hb : nonBlank ln = true := by simp [nonBlank, h]
      rw [hb, if_pos h]
      simp only [if_true]
      rw [foldAdd_cons]
      exact ih _ (k + 1)

theorem lineLoop_none_processed (cfg : Config) (p : FsPath) :
    ∀ (ls : List String) (miner : Drain3.MinerState) (k : Nat),
      (lineLoop cfg p none miner k ls).2.1 = k + ls.length := by
  intro ls
  induction ls with
  | nil => intro miner k; rfl
  | cons ln rest ih =>
    intro miner k
    rw [lineLoop_cons_miss cfg p none miner k ln rest rfl]
    dsimp only
    rw [ih _ (k + 1), List.length_cons]
    omega

theorem lineLoop_none_events (cfg : Config) (p : FsPath) :
    ∀ (ls : List String) (miner : Drain3.MinerState) (k : Nat),
      (lineLoop cfg p none miner k ls).2.2 =
        ((List.range' (k + 1) ls.length).filter
          (fun n => n % cfg.STREAM_FLUSH_EVERY == 0)).map (Event.progress p) := by
  intro ls
  induction ls with
  | nil => intro miner k; rfl
  | cons ln rest ih =>
    intro miner k
    rw [lineLoop_cons_miss cfg p none miner k ln rest rfl]
    dsimp only
    rw [List.length_cons, List.range'_succ, List.filter_cons, ih _ (k + 1)]
    rcases Bool.eq_false_or_eq_true ((k + 1) % cfg.STREAM_FLUSH_EVERY == 0) with hmod | hmod <;>
      simp [hmod]

theorem lineLoop_cap (cfg : Config) (p : FsPath) (m : Nat) (hm : m ≠ 0) :
    ∀ (ls : List String) (miner : Drain3.MinerState) (k : Nat), k ≤ m →
      (lineLoop cfg p (some m) miner k ls).1 =
        Drain3.foldAdd cfg.SIM_TH miner ((ls.take (m - k)).filter nonBlank) ∧
      (lineLoop cfg p (some m) miner k ls).2.1 = k + min (m - k) ls.length := by
  intro ls
  induction ls with
  | nil =>
    intro miner k hk
    refine ⟨?_, ?_⟩
    · simp [lineLoop, List.take_nil, Drain3.foldAdd]
    · simp [lineLoop]
  | cons ln rest ih =>
    intro miner k hk
    rcases Nat.lt_or_ge k m with hlt | hge
    · have hc : capHit (some m) (k + 1) = false := by
        simp only [capHit, Bool.and_eq_false_iff, decide_eq_false_iff_not]
        right
        omega
      rw [lineLoop_cons_miss cfg p (some m) miner k ln rest hc]
      dsimp only
      have hsub : m - k = (m - (k + 1)) + 1 := by omega
      rw [hsub, List.take_succ_cons, List.filter_cons]
      constructor
      · by_cases h : Drain3.pyStrip ln = ""
        · have hb : nonBlank ln = false := by simp [nonBlank, h]
          rw [hb, if_neg (not_not_intro h)]
          simp only [Bool.false_eq_true, if_false]
          exact (ih miner (k + 1) (by omega)).1
        · have hb : nonBlank ln = true := by simp [nonBlank, h]
          rw [hb, if_pos h]
          simp only [if_true]
          rw [foldAdd_cons]
          exact (ih _ (k + 1) (by omega)).1
      · rw [(ih _ (k + 1) (by omega)).2, List.length_cons, Nat.succ_min_succ]
        omega
    · have hk' : k = m := Nat.le_antisymm hk hge
      have hc : capHit (some m) (k + 1) = true := by
        simp only [capHit, Bool.and_eq_true, decide_eq_true_eq]
        exact ⟨hm, by omega⟩
      rw [lineLoop_cons_hit cfg p (some m) miner k ln rest hc]
      have hz : m - k = 0 := by omega
      rw [hz]
      exact ⟨rfl, by simp⟩

theorem lineLoop_events_progress (cfg : Config) (p : FsPath) (ml : Option Nat) :
    ∀ (ls : List String) (miner : Drain3.MinerState) (k : Nat) (e : Event),
      e ∈ (lineLoop cfg p ml miner k ls).2.2 → ∃ n, e = Event.progress p n := by
  intro ls
  induction ls with
  | nil =>
    intro miner k e he
    simp only [lineLoop, List.not_mem_nil] at he
  | cons ln rest ih =>
    intro miner k e he
    cases hc : capHit ml (k + 1) with
    | true =>
      rw [lineLoop_cons_hit cfg p ml miner k ln rest hc] at he
      simp only [List.not_mem_nil] at he
    | false =>
      rw [lineLoop_cons_miss cfg p ml miner k ln rest hc] at he
      dsimp only at he
      rcases List.mem_append.1 he with h1 | h2
      · split at h1
        · exact ⟨k + 1, List.mem_singleton.1 h1⟩
        · simp only [List.not_mem_nil] at h1
      · exact ih _ (k + 1) e h2

theorem lineLoop_filter_error (cfg : Config) (p : FsPath) (ml : Option Nat)
    (ls : List String) (miner : Drain3.MinerState) (k : Nat) :
    ((lineLoop cfg p ml miner k ls).2.2).filter Event.isErrorEv = [] := by
  refine List.filter_eq_nil_iff.mpr ?_
  intro e he
  obtain ⟨n, rfl⟩ := lineLoop_events_progress cfg p ml ls miner k e he
  simp [Event.isErrorEv]

theorem lineLoop_filter_progress (cfg : Config) (p : FsPath) (ml : Option Nat)
    (ls : List String) (miner : Drain3.MinerState) (k : Nat) :
    ((lineLoop cfg p ml miner k ls).2.2).filter Event.isProgressEv =
      (lineLoop cfg p ml miner k ls).2.2 := by
  refine List.filter_eq_self.mpr ?_
  intro e he
  obtain ⟨n, rfl⟩ := lineLoop_events_progress cfg p ml ls miner k e he
  simp [Event.isProgressEv]

/-! ### Record-level equations for one processed source -/

theorem indexGood_events (cfg : Config) (sd : FsPath) (sf : FsPath → Bool) (ml : Option Nat)
    (fs : Fs) (p : FsPath) (content : List String) :
    (indexGood cfg sd sf ml fs p content).events =
      [Event.start p (_snapshot_path_for sd p)] ++
        (lineLoop cfg p ml (loadMiner fs (_snapshot_path_for sd p)) 0 (_read_lines content)).2.2 ++
        (_clusters_as_dicts
          (lineLoop cfg p ml (loadMiner fs (_snapshot_path_for sd p)) 0 (_read_lines content)).1
          none).map (fun c => Event.template p c.cluster_id c.size c.template) ++
        [Event.file_summary p (_snapshot_path_for sd p)
          (lineLoop cfg p ml (loadMiner fs (_snapshot_path_for sd p)) 0 (_read_lines content)).2.1
          (_clusters_as_dicts
            (lineLoop cfg p ml (loadMiner fs (_snapshot_path_for sd p)) 0 (_read_lines content)).1
            none).length] := rfl

theorem indexGood_processed (cfg : Config) (sd : FsPath) (sf : FsPath → Bool) (ml : Option Nat)
    (fs : Fs) (p : FsPath) (content : List String) :
    (indexGood cfg sd sf ml fs p content).processed =
      (lineLoop cfg p ml (loadMiner fs (_snapshot_path_for sd p)) 0 (_read_lines content)).2.1 :=
  rfl

theorem indexGood_cluster_count (cfg : Config) (sd : FsPath) (sf : FsPath → Bool)
    (ml : Option Nat) (fs : Fs) (p : FsPath) (content : List String) :
    (indexGood cfg sd sf ml fs p content).cluster_count =
      (_clusters_as_dicts
        (lineLoop cfg p ml (loadMiner fs (_snapshot_path_for sd p)) 0 (_read_lines content)).1
        none).length := rfl

theorem indexGood_failed (cfg : Config) (sd : FsPath) (sf : FsPath → Bool) (ml : Option Nat)
    (fs : Fs) (p : FsPath) (content : List String) :
    (indexGood cfg sd sf ml fs p content).failed = false := rfl

theorem indexGood_files (cfg : Config) (sd : FsPath) (sf : FsPath → Bool) (ml : Option Nat)
    (fs : Fs) (p : FsPath) (content : List String) :
    (indexGood cfg sd sf ml fs p content).fs.files = fs.files := by
  unfold indexGood
  dsimp only
  split <;> rfl

theorem indexGood_fs_save_ok (cfg : Config) (sd : FsPath) (sf : FsPath → Bool) (ml : Option Nat)
    (fs : Fs) (p : FsPath) (content : List String)
    (hs : sf (_snapshot_path_for sd p) = false) :
    (indexGood cfg sd sf ml fs p content).fs =
      { files := fs.files,
        snapshots := storePath fs.snapshots (_snapshot_path_for sd p)
          (lineLoop cfg p ml (loadMiner fs (_snapshot_path_for sd p)) 0
            (_read_lines content)).1,
        unreadable := fs.unreadable } := by
  unfold indexGood
  dsimp only
  rw [hs]
  rfl

theorem indexGood_unreadable (cfg : Config) (sd : FsPath) (sf : FsPath → Bool) (ml : Option Nat)
    (fs : Fs) (p : FsPath) (content : List String) :
    (indexGood cfg sd sf ml fs p content).fs.unreadable = fs.unreadable := by
  unfold indexGood
  dsimp only
  split <;> rfl

theorem index_one_good (cfg : Config) (sd : FsPath) (sf : FsPath → Bool) (ml : Option Nat)
    (fs : Fs) (path : FsPath) (content : List String)
    (h : lookupPath fs.files (resolvePath path) = some content) :
    index_one cfg sd sf ml fs path = indexGood cfg sd sf ml fs (resolvePath path) content := by
  unfold index_one
  rw [h]

theorem index_one_bad (cfg : Config) (sd : FsPath) (sf : FsPath → Bool) (ml : Option Nat)
    (fs : Fs) (path : FsPath)
    (h : lookupPath fs.files (resolvePath path) = none)
    (hnr : resolvePath path ∉ fs.unreadable) :
    index_one cfg sd sf ml fs path =
      { events := [Event.error ("File not found: " ++ pathToString (resolvePath path))
          (resolvePath path)],
        logs := ["File not found: " ++ pathToString (resolvePath path)],
        fs := fs, failed := true, raised := false, processed := 0, cluster_count := 0 } := by
  unfold index_one
  rw [h]
  exact if_neg hnr

theorem index_one_raised (cfg : Config) (sd : FsPath) (sf : FsPath → Bool) (ml : Option Nat)
    (fs : Fs) (path : FsPath)
    (h : lookupPath fs.files (resolvePath path) = none)
    (hr : resolvePath path ∈ fs.unreadable) :
    index_one cfg sd sf ml fs path =
      { events := [Event.start (resolvePath path)
          (_snapshot_path_for sd (resolvePath path))],
        logs := ["File found: " ++ pathToString (resolvePath path),
                 "Snapshot path: " ++ pathToString (_snapshot_path_for sd (resolvePath path)),
                 "Template miner created",
                 "Started processing file"],
        fs := fs, failed := false, raised := true, processed := 0, cluster_count := 0 } := by
  unfold index_one
  rw [h]
  exact if_pos hr

theorem index_one_files (cfg : Config) (sd : FsPath) (sf : FsPath → Bool) (ml : Option Nat)
    (fs : Fs) (path : FsPath) :
    (index_one cfg sd sf ml fs path).fs.files = fs.files := by
  cases h : lookupPath fs.files (resolvePath path) with
  | none =>
    unfold index_one
    rw [h]
    dsimp only
    split <;> rfl
  | some content =>
    rw [index_one_good cfg sd sf ml fs path content h]
    exact indexGood_files cfg sd sf ml fs (resolvePath path) content

theorem index_one_unreadable (cfg : Config) (sd : FsPath) (sf : FsPath → Bool) (ml : Option Nat)
    (fs : Fs) (path : FsPath) :
    (index_one cfg sd sf ml fs path).fs.unreadable = fs.unreadable := by
  cases h : lookupPath fs.files (resolvePath path) with
  | none =>
    unfold index_one
    rw [h]
    dsimp only
    split <;> rfl
  | some content =>
    rw [index_one_good cfg sd sf ml fs path content h]
    exact indexGood_unreadable cfg sd sf ml fs (resolvePath path) content

theorem index_one_failed (cfg : Config) (sd : FsPath) (sf : FsPath → Bool) (ml : Option Nat)
    (fs : Fs) (path : FsPath) (hnr : resolvePath path ∉ fs.unreadable) :
    (index_one cfg sd sf ml fs path).failed = (lookupPath fs.files (resolvePath path)).isNone := by
  cases h : lookupPath fs.files (resolvePath path) with
  | none => rw [index_one_bad cfg sd sf ml fs path h hnr]; rfl
  | some content => rw [index_one_good cfg sd sf ml fs path content h]; rfl

theorem index_one_not_raised (cfg : Config) (sd : FsPath) (sf : FsPath → Bool) (ml : Option Nat)
    (fs : Fs) (path : FsPath) (hnr : resolvePath path ∉ fs.unreadable) :
    (index_one cfg sd sf ml fs path).raised = false := by
  cases h : lookupPath fs.files (resolvePath path) with
  | none => rw [index_one_bad cfg sd sf ml fs path h hnr]
  | some content => rw [index_one_good cfg sd sf ml fs path content h]; rfl

theorem indexGood_filter_error (cfg : Config) (sd : FsPath) (sf : FsPath → Bool) (ml : Option Nat)
    (fs : Fs) (p : FsPath) (content : List String) :
    ((indexGood cfg sd sf ml fs p content).events).filter Event.isErrorEv = [] := by
  rw [indexGood_events]
  simp [List.filter_append, lineLoop_filter_error, Event.isErrorEv, List.filter_map,
    Function.comp]

theorem indexGood_filter_progress (cfg : Config) (sd : FsPath) (sf : FsPath → Bool)
    (ml : Option Nat) (fs : Fs) (p : FsPath) (content : List String) :
    ((indexGood cfg sd sf ml fs p content).events).filter Event.isProgressEv =
      (lineLoop cfg p ml (loadMiner fs (_snapshot_path_for sd p)) 0 (_read_lines content)).2.2 := by
  rw [indexGood_events]
  simp [List.filter_append, lineLoop_filter_progress, Event.isProgressEv, List.filter_map,
    Function.comp]

theorem indexGood_head (cfg : Config) (sd : FsPath) (sf : FsPath → Bool) (ml : Option Nat)
    (fs : Fs) (p : FsPath) (content : List String) :
    (indexGood cfg sd sf ml fs p content).events.head? =
      some (Event.start p (_snapshot_path_for sd p)) := by
  rw [indexGood_events]
  rfl

theorem indexGood_getLast (cfg : Config) (sd : FsPath) (sf : FsPath → Bool) (ml : Option Nat)
    (fs : Fs) (p : FsPath) (content : List String) :
    (indexGood cfg sd sf ml fs p content).events.getLast? =
      some (Event.file_summary p (_snapshot_path_for sd p)
        (lineLoop cfg p ml (loadMiner fs (_snapshot_path_for sd p)) 0 (_read_lines content)).2.1
        (_clusters_as_dicts
          (lineLoop cfg p ml (loadMiner fs (_snapshot_path_for sd p)) 0 (_read_lines content)).1
          none).length) := by
  rw [indexGood_events]
  exact List.getLast?_concat _

theorem indexGood_start_mem (cfg : Config) (sd : FsPath) (sf : FsPath → Bool) (ml : Option Nat)
    (fs : Fs) (p : FsPath) (content : List String) :
    Event.start p (_snapshot_path_for sd p) ∈ (indexGood cfg sd sf ml fs p content).events := by
  rw [indexGood_events]
  simp

/-- C5: with a per-source cap `max_lines = m ≥ 1`, only the non-blank lines
among the first `m` lines of the file reach the engine (in order), the
reported `processed_lines` of the file summary equals `min m` (total line
count), and reaching the cap produces no error event. -/
theorem max_lines_cap_respected (cfg : Config) (sd : FsPath) (sf : FsPath → Bool) (fs : Fs)
    (p : FsPath) (content : List String) (m : Nat)
    (hf : lookupPath fs.files (resolvePath p) = some content) (hm : 1 ≤ m) :
    (lineLoop cfg (resolvePath p) (some m)
        (loadMiner fs (_snapshot_path_for sd (resolvePath p))) 0 (_read_lines content)).1 =
      Drain3.foldAdd cfg.SIM_TH (loadMiner fs (_snapshot_path_for sd (resolvePath p)))
        (((_read_lines content).take m).filter nonBlank) ∧
    (index_one cfg sd sf (some m) fs p).processed = min m (_read_lines content).length ∧
    ((index_one cfg sd sf (some m) fs p).events).filter Event.isErrorEv = [] ∧
    (index_one cfg sd sf (some m) fs p).events.getLast? =
      some (Event.file_summary (resolvePath p) (_snapshot_path_for sd (resolvePath p))
        (min m (_read_lines content).length)
        (index_one cfg sd sf (some m) fs p).cluster_count) := by
  have hm0 : m ≠ 0 := by omega
  have hcap := lineLoop_cap cfg (resolvePath p) m hm0 (_read_lines content)
    (loadMiner fs (_snapshot_path_for sd (resolvePath p))) 0 (Nat.zero_le m)
  have h1 := hcap.1
  have h2 := hcap.2
  rw [Nat.sub_zero] at h1 h2
  rw [Nat.zero_add] at h2
  refine ⟨h1, ?_, ?_, ?_⟩
  · rw [index_one_good cfg sd sf (some m) fs p content hf, indexGood_processed, h2]
  · rw [index_one_good cfg sd sf (some m) fs p content hf]
    exact indexGood_filter_error cfg sd sf (some m) fs (resolvePath p) content
  · rw [index_one_good cfg sd sf (some m) fs p content hf, indexGood_getLast, h2,
      indexGood_cluster_count]

theorem max_lines_cap_respected_witness :
    lookupPath fsC5.files (resolvePath ["logs", "b.log"]) = some ["a 1", "", "a 2"] ∧
    (index_one defaultConfig ["st"] (fun _ => false) (some 2) fsC5 ["logs", "b.log"]).processed
      = 2 ∧
    ((index_one defaultConfig ["st"] (fun _ => false) (some 2) fsC5
        ["logs", "b.log"]).events).filter Event.isErrorEv = [] := by
  have main := max_lines_cap_respected defaultConfig ["st"] (fun _ => false) fsC5
    ["logs", "b.log"] ["a 1", "", "a 2"] 2 rfl (by omega)
  refine ⟨rfl, ?_, main.2.2.1⟩
  rw [main.2.1]
  decide

/-- C6: without a cap, the engine receives exactly the non-blank (after
trimming) lines of the source, in order, while the per-source counter
counts every line read (blank or not): the final `processed` equals the
file's total line count and the file summary reports it. -/
theorem engine_called_iff_nonblank (cfg : Config) (sd : FsPath) (sf : FsPath → Bool) (fs : Fs)
    (p : FsPath) (content : List String)
    (hf : lookupPath fs.files (resolvePath p) = some content) :
    (lineLoop cfg (resolvePath p) none
        (loadMiner fs (_snapshot_path_for sd (resolvePath p))) 0 (_read_lines content)).1 =
      Drain3.foldAdd cfg.SIM_TH (loadMiner fs (_snapshot_path_for sd (resolvePath p)))
        ((_read_lines content).filter nonBlank) ∧
    (index_one cfg sd sf none fs p).processed = (_read_lines content).length ∧
    (index_one cfg sd sf none fs p).events.getLast? =
      some (Event.file_summary (resolvePath p) (_snapshot_path_for sd (resolvePath p))
        (_read_lines content).length (index_one cfg sd sf none fs p).cluster_count) := by
  have h2 := lineLoop_none_processed cfg (resolvePath p) (_read_lines content)
    (loadMiner fs (_snapshot_path_for sd (resolvePath p))) 0
  rw [Nat.zero_add] at h2
  refine ⟨lineLoop_none_miner cfg (resolvePath p) (_read_lines content) _ 0, ?_, ?_⟩
  · rw [index_one_good cfg sd sf none fs p content hf, indexGood_processed, h2]
  · rw [index_one_good cfg sd sf none fs p content hf, indexGood_getLast, h2,
      indexGood_cluster_count]

theorem engine_called_iff_nonblank_witness :
    lookupPath fsC6.files (resolvePath ["logs", "c.log"]) = some ["x 1", "", "x 1"] ∧
    (index_one defaultConfig ["st"] (fun _ => false) none fsC6 ["logs", "c.log"]).processed
      = 3 ∧
    (lineLoop defaultConfig (resolvePath ["logs", "c.log"]) none
        (loadMiner fsC6 (_snapshot_path_for ["st"] (resolvePath ["logs", "c.log"]))) 0
        (_read_lines ["x 1", "", "x 1"])).1 =
      Drain3.foldAdd defaultConfig.SIM_TH
        (loadMiner fsC6 (_snapshot_path_for ["st"] (resolvePath ["logs", "c.log"])))
        ["x 1", "x 1"] := by
  have main := engine_called_iff_nonblank defaultConfig ["st"] (fun _ => false) fsC6
    ["logs", "c.log"] ["x 1", "", "x 1"] rfl
  refine ⟨rfl, by rw [main.2.1]; decide, ?_⟩
  rw [main.1]
  decide

/-- C7: with no cap, the progress events among a processed source's event
trace are exactly one for every `STREAM_FLUSH_EVERY`-th line read, carrying
the source identity and the line counter at that point, and none other
(the hypothesis `1 ≤ STREAM_FLUSH_EVERY` mirrors the source default of
500; `STREAM_FLUSH_EVERY = 0` would crash the Python modulo). -/
theorem progress_every_flush_interval (cfg : Config) (sd : FsPath) (sf : FsPath → Bool)
    (fs : Fs) (p : FsPath) (content : List String)
    (hf : lookupPath fs.files (resolvePath p) = some content)
    (hN : 1 ≤ cfg.STREAM_FLUSH_EVERY) :
    ((index_one cfg sd sf none fs p).events).filter Event.isProgressEv =
      ((List.range' 1 (_read_lines content).length).filter
        (fun n => n % cfg.STREAM_FLUSH_EVERY == 0)).map (Event.progress (resolvePath p)) := by
  rw [index_one_good cfg sd sf none fs p content hf,
    indexGood_filter_progress cfg sd sf none fs (resolvePath p) content,
    lineLoop_none_events cfg (resolvePath p) (_read_lines content) _ 0]

theorem progress_every_flush_interval_witness :
    lookupPath fsC7.files (resolvePath ["logs", "d.log"])
      = some ["m 1", "m 2", "m 3", "m 4", "m 5"] ∧
    1 ≤ cfgN2.STREAM_FLUSH_EVERY ∧
    ((index_one cfgN2 ["st"] (fun _ => false) none fsC7 ["logs", "d.log"]).events).filter
        Event.isProgressEv =
      [Event.progress ["logs", "d.log"] 2, Event.progress ["logs", "d.log"] 4] := by
  have main := progress_every_flush_interval cfgN2 ["st"] (fun _ => false) fsC7
    ["logs", "d.log"] ["m 1", "m 2", "m 3", "m 4", "m 5"] rfl (by decide)
  refine ⟨rfl, by decide, ?_⟩
  rw [main]
  decide

/-! ### Snapshot reuse between `index_file` and `query_file` -/

theorem query_file_no_error_of_snapshot (cfg : Config) (sd : FsPath) (fs : Fs) (p : FsPath)
    (t : String) (st : Drain3.MinerState)
    (h : lookupPath fs.snapshots (_snapshot_path_for sd (resolvePath p)) = some st) :
    ((query_file cfg sd fs p t).1).filter Event.isErrorEv = [] := by
  unfold query_file
  rw [h]
  dsimp only
  cases st.matchText cfg.SIM_TH t <;> rfl

/-- C4: the snapshot location is a deterministic function of the source
path inside the state directory: a processed source's start event names
exactly `_snapshot_path_for`, the final state is persisted under that same
key, and a subsequent `query_file` against the same source path resolves to
the identical snapshot path, finds the stored state, and reports no "No
snapshot" error — without any caller-side bookkeeping. -/
theorem snapshot_path_deterministic (cfg : Config) (sd : FsPath) (sf : FsPath → Bool)
    (ml : Option Nat) (fs : Fs) (p : FsPath) (content : List String) (t : String)
    (hf : lookupPath fs.files (resolvePath p) = some content)
    (hs : sf (_snapshot_path_for sd (resolvePath p)) = false) :
    (index_one cfg sd sf ml fs p).events.head? =
      some (Event.start (resolvePath p) (_snapshot_path_for sd (resolvePath p))) ∧
    lookupPath (index_one cfg sd sf ml fs p).fs.snapshots
        (_snapshot_path_for sd (resolvePath p)) =
      some (lineLoop cfg (resolvePath p) ml
        (loadMiner fs (_snapshot_path_for sd (resolvePath p))) 0 (_read_lines content)).1 ∧
    ((query_file cfg sd (index_one cfg sd sf ml fs p).fs p t).1).filter Event.isErrorEv = [] := by
  rw [index_one_good cfg sd sf ml fs p content hf]
  have hstore : lookupPath (indexGood cfg sd sf ml fs (resolvePath p) content).fs.snapshots
      (_snapshot_path_for sd (resolvePath p)) =
      some (lineLoop cfg (resolvePath p) ml
        (loadMiner fs (_snapshot_path_for sd (resolvePath p))) 0 (_read_lines content)).1 := by
    rw [indexGood_fs_save_ok cfg sd sf ml fs (resolvePath p) content hs]
    exact lookupPath_store_self _ _ _
  refine ⟨indexGood_head cfg sd sf ml fs (resolvePath p) content, hstore, ?_⟩
  exact query_file_no_error_of_snapshot cfg sd _ p t _ hstore

theorem snapshot_path_deterministic_witness :
    lookupPath fsC4.files (resolvePath ["var", "app.log"]) = some ["u 1"] ∧
    (index_one defaultConfig ["st"] (fun _ => false) none fsC4 ["var", "app.log"]).events.head? =
      some (Event.start ["var", "app.log"] ["st", "app.log.snapshot.json"]) ∧
    ((query_file defaultConfig ["st"]
        (index_one defaultConfig ["st"] (fun _ => false) none fsC4 ["var", "app.log"]).fs
        ["var", "app.log"] "u 9").1).filter Event.isErrorEv = [] := by
  have main := snapshot_path_deterministic defaultConfig ["st"] (fun _ => false) none fsC4
    ["var", "app.log"] ["u 1"] "u 9" rfl rfl
  exact ⟨rfl, main.1, main.2.2⟩

/-- C8 (implicit): the snapshot path depends only on the final name
component of the source path, so two distinct resolved paths with the same
file name collide on the identical snapshot file: after mining `p`, a query
naming the other path `q` finds `p`'s stored state under the shared key and
answers from it (no "No snapshot" error), instead of reporting a missing
snapshot for `q`. -/
theorem snapshot_name_collision (cfg : Config) (sd : FsPath) (sf : FsPath → Bool)
    (ml : Option Nat) (fs : Fs) (p q : FsPath) (content : List String) (t : String)
    (hf : lookupPath fs.files (resolvePath p) = some content)
    (hpq : resolvePath p ≠ resolvePath q)
    (hname : pathName (resolvePath p) = pathName (resolvePath q))
    (hs : sf (_snapshot_path_for sd (resolvePath p)) = false) :
    _snapshot_path_for sd (resolvePath p) = _snapshot_path_for sd (resolvePath q) ∧
    lookupPath (index_one cfg sd sf ml fs p).fs.snapshots
        (_snapshot_path_for sd (resolvePath q)) =
      some (lineLoop cfg (resolvePath p) ml
        (loadMiner fs (_snapshot_path_for sd (resolvePath p))) 0 (_read_lines content)).1 ∧
    ((query_file cfg sd (index_one cfg sd sf ml fs p).fs q t).1).filter Event.isErrorEv = [] := by
  have hsnap : _snapshot_path_for sd (resolvePath p) = _snapshot_path_for sd (resolvePath q) := by
    unfold _snapshot_path_for
    rw [hname]
  rw [index_one_good cfg sd sf ml fs p content hf]
  have hstore : lookupPath (indexGood cfg sd sf ml fs (resolvePath p) content).fs.snapshots
      (_snapshot_path_for sd (resolvePath q)) =
      some (lineLoop cfg (resolvePath p) ml
        (loadMiner fs (_snapshot_path_for sd (resolvePath p))) 0 (_read_lines content)).1 := by
    rw [← hsnap, indexGood_fs_save_ok cfg sd sf ml fs (resolvePath p) content hs]
    exact lookupPath_store_self _ _ _
  refine ⟨hsnap, hstore, ?_⟩
  exact query_file_no_error_of_snapshot cfg sd _ q t _ hstore

theorem snapshot_name_collision_witness :
    lookupPath fsC8.files (resolvePath ["a", "x.log"]) = some ["w 7"] ∧
    (["a", "x.log"] : FsPath) ≠ ["b", "x.log"] ∧
    pathName ["a", "x.log"] = pathName ["b", "x.log"] ∧
    _snapshot_path_for ["st"] (resolvePath ["a", "x.log"]) =
      _snapshot_path_for ["st"] (resolvePath ["b", "x.log"]) ∧
    ((query_file defaultConfig ["st"]
        (index_one defaultConfig ["st"] (fun _ => false) none fsC8 ["a", "x.log"]).fs
        ["b", "x.log"] "w 8").1).filter Event.isErrorEv = [] := by
  have main := snapshot_name_collision defaultConfig ["st"] (fun _ => false) none fsC8
    ["a", "x.log"] ["b", "x.log"] ["w 7"] "w 8" rfl (by decide) rfl rfl
  exact ⟨rfl, by decide, rfl, main.1, main.2.2⟩

/-! ### Batch processing: per-source failures are isolated -/

theorem combineBatch_events (so : SourceOut) (b : BatchOut) (path : FsPath) :
    (combineBatch so b path).events = so.events ++ b.events := by
  unfold combineBatch
  split <;> rfl

theorem combineBatch_raised (so : SourceOut) (b : BatchOut) (path : FsPath) :
    (combineBatch so b path).raised = b.raised := by
  unfold combineBatch
  split <;> rfl

theorem combineBatch_failed_files_true (so : SourceOut) (b : BatchOut) (path : FsPath)
    (h : so.failed = true) :
    (combineBatch so b path).failed_files = resolvePath path :: b.failed_files := by
  unfold combineBatch
  rw [h]
  rfl

theorem combineBatch_failed_files_false (so : SourceOut) (b : BatchOut) (path : FsPath)
    (h : so.failed = false) :
    (combineBatch so b path).failed_files = b.failed_files := by
  unfold combineBatch
  rw [h]
  rfl

theorem indexLoop_cons_not_raised (cfg : Config) (sd : FsPath) (sf : FsPath → Bool)
    (ml : Option Nat) (fs : Fs) (p : FsPath) (rest : List FsPath)
    (h : (index_one cfg sd sf ml fs p).raised = false) :
    indexLoop cfg sd sf ml fs (p :: rest) =
      combineBatch (index_one cfg sd sf ml fs p)
        (indexLoop cfg sd sf ml (index_one cfg sd sf ml fs p).fs rest) p := by
  show (if (index_one cfg sd sf ml fs p).raised then _ else _) = _
  rw [if_neg]
  rw [h]
  exact Bool.false_ne_true

theorem indexLoop_not_raised (cfg : Config) (sd : FsPath) (sf : FsPath → Bool)
    (ml : Option Nat) :
    ∀ (paths : List FsPath) (fs : Fs),
      (∀ q ∈ paths, resolvePath q ∉ fs.unreadable) →
      (indexLoop cfg sd sf ml fs paths).raised = false := by
  intro paths
  induction paths with
  | nil => intro fs _; rfl
  | cons p rest ih =>
    intro fs hnr
    have hnrp : resolvePath p ∉ fs.unreadable := hnr p (List.mem_cons_self p rest)
    rw [indexLoop_cons_not_raised cfg sd sf ml fs p rest
        (index_one_not_raised cfg sd sf ml fs p hnrp),
      combineBatch_raised]
    refine ih ((index_one cfg sd sf ml fs p).fs) ?_
    intro q hq
    rw [index_one_unreadable]
    exact hnr q (List.mem_cons_of_mem p hq)

theorem indexLoop_failed (cfg : Config) (sd : FsPath) (sf : FsPath → Bool) (ml : Option Nat) :
    ∀ (paths : List FsPath) (fs : Fs),
      (∀ q ∈ paths, resolvePath q ∉ fs.unreadable) →
      (indexLoop cfg sd sf ml fs paths).failed_files =
        (paths.map resolvePath).filter (fun q => (lookupPath fs.files q).isNone) := by
  intro paths
  induction paths with
  | nil => intro fs _; rfl
  | cons p rest ih =>
    intro fs hnr
    have hnrp : resolvePath p ∉ fs.unreadable := hnr p (List.mem_cons_self p rest)
    have hnr' : ∀ q ∈ rest, resolvePath q ∉ (index_one cfg sd sf ml fs p).fs.unreadable := by
      intro q hq
      rw [index_one_unreadable]
      exact hnr q (List.mem_cons_of_mem p hq)
    rw [indexLoop_cons_not_raised cfg sd sf ml fs p rest
        (index_one_not_raised cfg sd sf ml fs p hnrp)]
    cases h : lookupPath fs.files (resolvePath p) with
    | none =>
      have hfail : (index_one cfg sd sf ml fs p).failed = true := by
        rw [index_one_failed cfg sd sf ml fs p hnrp, h]
        rfl
      rw [combineBatch_failed_files_true _ _ _ hfail, index_one_bad cfg sd sf ml fs p h hnrp,
        ih fs (fun q hq => hnr q (List.mem_cons_of_mem p hq))]
      simp [List.map_cons, List.filter_cons, h]
    | some content =>
      have hfail : (index_one cfg sd sf ml fs p).failed = false := by
        rw [index_one_failed cfg sd sf ml fs p hnrp, h]
        rfl
      rw [combineBatch_failed_files_false _ _ _ hfail,
        ih ((index_one cfg sd sf ml fs p).fs) hnr']
      simp only [index_one_files]
      simp [List.map_cons, List.filter_cons, h]

theorem indexLoop_filter_error (cfg : Config) (sd : FsPath) (sf : FsPath → Bool)
    (ml : Option Nat) :
    ∀ (paths : List FsPath) (fs : Fs),
      (∀ q ∈ paths, resolvePath q ∉ fs.unreadable) →
      ((indexLoop cfg sd sf ml fs paths).events).filter Event.isErrorEv =
        ((paths.map resolvePath).filter (fun q => (lookupPath fs.files q).isNone)).map
          (fun q => Event.error ("File not found: " ++ pathToString q) q) := by
  intro paths
  induction paths with
  | nil => intro fs _; rfl
  | cons p rest ih =>
    intro fs hnr
    have hnrp : resolvePath p ∉ fs.unreadable := hnr p (List.mem_cons_self p rest)
    have hnr' : ∀ q ∈ rest, resolvePath q ∉ (index_one cfg sd sf ml fs p).fs.unreadable := by
      intro q hq
      rw [index_one_unreadable]
      exact hnr q (List.mem_cons_of_mem p hq)
    rw [indexLoop_cons_not_raised cfg sd sf ml fs p rest
        (index_one_not_raised cfg sd sf ml fs p hnrp)]
    rw [combineBatch_events, List.filter_append]
    cases h : lookupPath fs.files (resolvePath p) with
    | none =>
      rw [index_one_bad cfg sd sf ml fs p h hnrp]
      dsimp only
      rw [ih fs (fun q hq => hnr q (List.mem_cons_of_mem p hq))]
      simp [List.map_cons, List.filter_cons, h, Event.isErrorEv]
    | some content =>
      rw [index_one_good cfg sd sf ml fs p content h,
        indexGood_filter_error cfg sd sf ml fs (resolvePath p) content]
      rw [index_one_good cfg sd sf ml fs p content h] at hnr'
      rw [ih ((indexGood cfg sd sf ml fs (resolvePath p) content).fs) hnr']
      simp only [indexGood_files]
      simp [List.map_cons, List.filter_cons, h]

theorem indexLoop_start_mem (cfg : Config) (sd : FsPath) (sf : FsPath → Bool)
    (ml : Option Nat) :
    ∀ (paths : List FsPath) (fs : Fs),
      (∀ q ∈ paths, resolvePath q ∉ fs.unreadable) →
      ∀ q ∈ paths, ∀ content : List String,
        lookupPath fs.files (resolvePath q) = some content →
          Event.start (resolvePath q) (_snapshot_path_for sd (resolvePath q)) ∈
            (indexLoop cfg sd sf ml fs paths).events := by
  intro paths
  induction paths with
  | nil =>
    intro fs _ q hq
    exact absurd hq (List.not_mem_nil q)
  | cons p rest ih =>
    intro fs hnr q hq content hgood
    have hnrp : resolvePath p ∉ fs.unreadable := hnr p (List.mem_cons_self p rest)
    rw [indexLoop_cons_not_raised cfg sd sf ml fs p rest
        (index_one_not_raised cfg sd sf ml fs p hnrp)]
    rw [combineBatch_events]
    rcases List.mem_cons.1 hq with rfl | hq'
    · refine List.mem_append.2 (Or.inl ?_)
      rw [index_one_good cfg sd sf ml fs q content hgood]
      exact indexGood_start_mem cfg sd sf ml fs (resolvePath q) content
    · refine List.mem_append.2 (Or.inr ?_)
      have hnr' : ∀ r ∈ rest, resolvePath r ∉ (index_one cfg sd sf ml fs p).fs.unreadable := by
        intro r hr
        rw [index_one_unreadable]
        exact hnr r (List.mem_cons_of_mem p hr)
      refine ih ((index_one cfg sd sf ml fs p).fs) hnr' q hq' content ?_
      rw [index_one_files]
      exact hgood

/-- C3 (amended): a source path failing the `p.exists() and p.is_file()`
check yields exactly one error event carrying its identity, appears in the
`failed_files` of the `total_summary`, and does not abort the batch — every
readable path before or after it still gets its start event.  The amendment
excludes batches containing an existing-but-unreadable regular file
(hypothesis: no queued path is unreadable): such a file passes the
exists/is_file guard and the uncaught `open()` error inside `_read_lines`
kills the whole generator, as the counterexample shows. -/
theorem batch_isolation (cfg : Config) (sd : FsPath) (sf : FsPath → Bool) (ml : Option Nat)
    (fs : Fs) (paths : List FsPath)
    (hnr : ∀ q ∈ paths, resolvePath q ∉ fs.unreadable) :
    (indexLoop cfg sd sf ml fs paths).failed_files =
      (paths.map resolvePath).filter (fun q => (lookupPath fs.files q).isNone) ∧
    ((index_file cfg sd sf fs paths ml).1).filter Event.isErrorEv =
      ((paths.map resolvePath).filter (fun q => (lookupPath fs.files q).isNone)).map
        (fun q => Event.error ("File not found: " ++ pathToString q) q) ∧
    (index_file cfg sd sf fs paths ml).1.getLast? =
      some (Event.total_summary (indexLoop cfg sd sf ml fs paths).total_files
        (indexLoop cfg sd sf ml fs paths).total_lines
        (indexLoop cfg sd sf ml fs paths).total_clusters
        ((paths.map resolvePath).filter (fun q => (lookupPath fs.files q).isNone))) ∧
    ∀ q ∈ paths, ∀ content : List String,
      lookupPath fs.files (resolvePath q) = some content →
        Event.start (resolvePath q) (_snapshot_path_for sd (resolvePath q)) ∈
          (index_file cfg sd sf fs paths ml).1 := by
  have hbr := indexLoop_not_raised cfg sd sf ml paths fs hnr
  refine ⟨indexLoop_failed cfg sd sf ml paths fs hnr, ?_, ?_, ?_⟩
  · unfold index_file
    dsimp only
    rw [hbr]
    simp only [Bool.false_eq_true, if_false]
    rw [List.filter_append, indexLoop_filter_error cfg sd sf ml paths fs hnr]
    simp [Event.isErrorEv]
  · unfold index_file
    dsimp only
    rw [hbr]
    simp only [Bool.false_eq_true, if_false]
    rw [List.getLast?_concat, indexLoop_failed cfg sd sf ml paths fs hnr]
  · intro q hq content hgood
    unfold index_file
    dsimp only
    rw [hbr]
    simp only [Bool.false_eq_true, if_false]
    exact List.mem_append.2
      (Or.inl (indexLoop_start_mem cfg sd sf ml paths fs hnr q hq content hgood))

theorem batch_isolation_witness :
    (∀ q ∈ ([["g", "one.log"], ["miss", "nope.log"], ["g", "two.log"]] : List FsPath),
      resolvePath q ∉ fsC3.unreadable) ∧
    (indexLoop defaultConfig ["st"] (fun _ => false) none fsC3
        [["g", "one.log"], ["miss", "nope.log"], ["g", "two.log"]]).failed_files =
      [["miss", "nope.log"]] ∧
    ((index_file defaultConfig ["st"] (fun _ => false) fsC3
        [["g", "one.log"], ["miss", "nope.log"], ["g", "two.log"]] none).1).filter
        Event.isErrorEv =
      [Event.error "File not found: /miss/nope.log" ["miss", "nope.log"]] ∧
    Event.start ["g", "two.log"] ["st", "two.log.snapshot.json"] ∈
      (index_file defaultConfig ["st"] (fun _ => false) fsC3
        [["g", "one.log"], ["miss", "nope.log"], ["g", "two.log"]] none).1 := by
  have hnr : ∀ q ∈ ([["g", "one.log"], ["miss", "nope.log"], ["g", "two.log"]] : List FsPath),
      resolvePath q ∉ fsC3.unreadable := by decide
  have main := batch_isolation defaultConfig ["st"] (fun _ => false) none fsC3
    [["g", "one.log"], ["miss", "nope.log"], ["g", "two.log"]] hnr
  refine ⟨hnr, ?_, ?_, ?_⟩
  · rw [main.1]
    decide
  · rw [main.2.1]
    decide
  · exact main.2.2.2 ["g", "two.log"] (by decide) ["k 2"] rfl

/-- C3 (counterexample to the claim as stated): an existing but unreadable
regular file passes the `p.exists() and p.is_file()` guard, so the uncaught
`open()` error inside `_read_lines` kills the whole generator.  In this
concrete batch of the unreadable `/u/bad.log` followed by the readable
`/g/two.log`, the delivered trace is just the start event of the unreadable
source: there is no error event for the failed source, it is not recorded
among the failed files, the remaining readable path is never processed, and
no `total_summary` is emitted — the failure of one source aborts the
batch, falsifying the claim. -/
theorem batch_abort_on_unreadable :
    (index_file defaultConfig ["st"] (fun _ => false) fsC3x
        [["u", "bad.log"], ["g", "two.log"]] none).1 =
      [Event.start ["u", "bad.log"] ["st", "bad.log.snapshot.json"]] ∧
    ((index_file defaultConfig ["st"] (fun _ => false) fsC3x
        [["u", "bad.log"], ["g", "two.log"]] none).1).filter Event.isErrorEv = [] ∧
    Event.start ["g", "two.log"] ["st", "two.log.snapshot.json"] ∉
      (index_file defaultConfig ["st"] (fun _ => false) fsC3x
        [["u", "bad.log"], ["g", "two.log"]] none).1 ∧
    (indexLoop defaultConfig ["st"] (fun _ => false) none fsC3x
        [["u", "bad.log"], ["g", "two.log"]]).failed_files = [] := by
  decide

end Drain3.Server

namespace Drain3.Stdio

/-- C10: calling the `parse_log` tool with a `log_line` argument that is
present but equal to the empty string returns the "Missing log_line
argument" error result and leaves the miner untouched, because the argument
check uses Python string truthiness. -/
theorem parse_log_empty_line_rejected (st : Drain3.MinerState)
    (args : List (String × String)) (h : argGet args "log_line" = some "") :
    call_tool st "parse_log" args =
      (ToolResponse.jsonError "Missing \x27log_line\x27 argument", st) := by
  unfold call_tool
  rw [h]
  rfl

theorem parse_log_empty_line_rejected_witness :
    argGet [("log_line", "")] "log_line" = some "" ∧
    call_tool ⟨[]⟩ "parse_log" [("log_line", "")] =
      (ToolResponse.jsonError "Missing \x27log_line\x27 argument", ⟨[]⟩) :=
  ⟨rfl, parse_log_empty_line_rejected ⟨[]⟩ [("log_line", "")] rfl⟩

end Drain3.Stdio
